import Mathlib

/-
Verification of the open-rack-vent hardware abstraction and sensor
conversion layer.  The thermistor pipeline (src/open_rack_vent/thermistor.py)
is embedded shallowly: Python floats become rationals, Python exceptions
become `Except String` values, Python dicts become association lists in
insertion (iteration) order.  The wiring configuration types
(src/open_rack_vent/host_hardware/board_interface_types.py) and the
interface builder (board_interfaces.py) are embedded as Lean structures and
total functions.
-/

namespace ORV

/-- Circuit constant from thermistor.py: RESISTANCE_OF_PULLDOWN = 10_000. -/
def RESISTANCE_OF_PULLDOWN : ℤ := 10000

/-- Circuit constant from thermistor.py: U_12_MAX = 4096. -/
def U_12_MAX : ℤ := 4096

/-- Embeds thermistor.py `_counts_to_resistance`.  The Python body is
`float((pulldown_resistance * (max_adc_count / adc_counts)) - pulldown_resistance)`;
`max_adc_count / adc_counts` is true division, which raises
`ZeroDivisionError` when `adc_counts == 0`.  Exceptions are embedded as
`Except.error`. -/
def counts_to_resistance (adc_counts pulldown_resistance max_adc_count : ℤ) :
    Except String ℚ :=
  if adc_counts = 0 then
    Except.error "ZeroDivisionError: division by zero"
  else
    Except.ok ((pulldown_resistance : ℚ) * ((max_adc_count : ℚ) / (adc_counts : ℚ))
      - (pulldown_resistance : ℚ))

/-- Embeds the running state of Python `min(range(len(l)), key=...)` inside
`_closest_to_value`: walk the remaining candidates keeping the current best,
replacing it only when a candidate is STRICTLY closer to `value` (Python
`min` keeps the earliest element on ties). -/
def closest_go (value best : ℚ) : List ℚ → ℚ
  | [] => best
  | x :: xs => closest_go value (if |x - value| < |best - value| then x else best) xs

/-- Embeds thermistor.py `_closest_to_value`.  Python `min` over an empty
sequence raises `ValueError`; otherwise the first element seeds the search. -/
def closest_to_value (value : ℚ) (list_of_values : List ℚ) : Except String ℚ :=
  match list_of_values with
  | [] => Except.error "ValueError: min() arg is an empty sequence"
  | x :: xs => Except.ok (closest_go value x xs)

/-- Embeds a Python dict subscript lookup `d[k]` on a dict represented as an
association list in insertion order; a missing key raises `KeyError`. -/
def dict_get (k : ℚ) : List (ℚ × ℚ) → Except String ℚ
  | [] => Except.error "KeyError"
  | kv :: rest => if kv.1 = k then Except.ok kv.2 else dict_get k rest

/-- Embeds thermistor.py `_thermistor_temperature_resistance`: look up the
key of `resistance_to_temperature` closest to `resistance`, then subscript
the dict at that key. -/
def thermistor_temperature_resistance (resistance : ℚ)
    (resistance_to_temperature : List (ℚ × ℚ)) : Except String ℚ :=
  match closest_to_value resistance (resistance_to_temperature.map Prod.fst) with
  | Except.error e => Except.error e
  | Except.ok k => dict_get k resistance_to_temperature

/-- Embeds thermistor.py `_read_resistance_to_temperature`.  Input is the
parsed JSON dict as a list of (temperature, resistance) entries in file
order, each entry holding the numeric values of the source strings (the
Python `float(...)` parses).  The dict comprehension swaps each pair:
`float(resistance_str): float(temperature_str)`.  No arithmetic is applied
to either component, despite the source comment saying the resistances
(kilo-ohms in the file) need to be multiplied by 1000. -/
def read_resistance_to_temperature (lookup_dict : List (ℚ × ℚ)) :
    List (ℚ × ℚ) :=
  lookup_dict.map (fun tr => (tr.2, tr.1))

/-- The body of the `try` block of `adc_counts_to_temperature` in
thermistor.py: first `_counts_to_resistance`, then
`_thermistor_temperature_resistance` on the loaded table. -/
def two_stage_conversion (resistance_to_temperature : List (ℚ × ℚ))
    (pulldown_resistance max_adc_count adc_counts : ℤ) : Except String ℚ :=
  match counts_to_resistance adc_counts pulldown_resistance max_adc_count with
  | Except.error e => Except.error e
  | Except.ok resistance_ohms =>
      thermistor_temperature_resistance resistance_ohms resistance_to_temperature

/-- Embeds the closure `adc_counts_to_temperature` returned by
`create_adc_counts_to_temperature_converter`: the two conversion stages run
under `try`, and `except Exception: return None` turns every raised
exception into `None`. -/
def adc_counts_to_temperature (resistance_to_temperature : List (ℚ × ℚ))
    (pulldown_resistance max_adc_count adc_counts : ℤ) : Option ℚ :=
  match two_stage_conversion resistance_to_temperature pulldown_resistance
      max_adc_count adc_counts with
  | Except.ok t => some t
  | Except.error _ => none

/-- The example table of spec section 8, in iteration order
0C:50000, 25C:10000, 100C:1000, already inverted to resistance -> temperature. -/
def sample_table : List (ℚ × ℚ) := [(50000, 0), (10000, 25), (1000, 100)]

/-- Embeds board_interface_types.py `RackLocation` (str Enum, four members). -/
inductive RackLocation where
  | intake_lower
  | intake_upper
  | exhaust_lower
  | exhaust_upper
deriving DecidableEq, Repr

/-- Embeds board_interface_types.py `HardwarePlatform` (str Enum): exactly one
member, `beaglebone_black = "BeagleBoneBlack"`. -/
inductive HardwarePlatform where
  | beaglebone_black
deriving DecidableEq, Repr

/-- Embeds board_interface_types.py `PCBRevision` (str Enum): exactly one
member, `v100 = "v1.0.0"`. -/
inductive PCBRevision where
  | v100
deriving DecidableEq, Repr

/-- The `.value` of the str Enum member, as in the source f-string
`f"Unsupported PCB Revision: \x7bpcb_revision.value\x7d"`. -/
def PCBRevision.value : PCBRevision → String
  | PCBRevision.v100 => "v1.0.0"

/-- Embeds board_interface_types.py `WireMappingVersion` (str Enum): exactly
one member, `version_1 = "1"`. -/
inductive WireMappingVersion where
  | version_1
deriving DecidableEq, Repr

/-- Modelled from the spec: the module
open_rack_vent/host_hardware/board_markings.py is not among the repository
files, only its callers are.  The active-low PWM board markings attested by
the callers (the builtin mapping in board_interface_types.py and the default
JSON payload in orvcli.py) are ONBOARD, PN2, PN3, PN5. -/
inductive BoardMarkingActiveLowPWM where
  | onboard
  | pn2
  | pn3
  | pn5
deriving DecidableEq, Repr

/-- Modelled from the spec: thermistor/analog board markings attested by the
callers of the missing board_markings.py are TMP0, TMP1, TMP4, TMP5. -/
inductive BoardMarkingThermistorPin where
  | tmp0
  | tmp1
  | tmp4
  | tmp5
deriving DecidableEq, Repr

/-- A board marking of either disjoint family (spec section 3: two disjoint
families exist), used to state the at-most-once invariant across the whole
mapping. -/
def BoardMarking : Type := BoardMarkingActiveLowPWM ⊕ BoardMarkingThermistorPin

instance : DecidableEq BoardMarking :=
  instDecidableEqSum

/-- Embeds board_interface_types.py `WireMapping` (pydantic model).  The two
dicts are association lists in iteration (insertion) order, as in the Python
dicts. -/
structure WireMapping where
  version : WireMappingVersion
  fans : List (RackLocation × List BoardMarkingActiveLowPWM)
  thermistors : List (RackLocation × List BoardMarkingThermistorPin)

/-- The error outcomes of interface construction and fan driving.
`valueError` embeds the Python `ValueError` raised by
`create_hardware_interface` in board_interfaces.py; the remaining
constructors embed the spec section 7 error taxonomy for the parts whose
code (interfaces/beaglebone_black.py) is not among the repository files. -/
inductive OrvError where
  | valueError (msg : String)
  | duplicateMarkingError
  | unknownMarkingError
  | rangeError
deriving DecidableEq, Repr

/-- Modelled from the spec: the registry
`BBB_V100_BOARD_MARKINGS_TO_PINS` of the missing
interfaces/beaglebone_black.py, mapping each PWM board marking to a concrete
BeagleBone pin handle (spec section 4.5: a fixed table per supported
platform/revision pair).  Pin names are representative handles. -/
def bbb_pwm_pin : BoardMarkingActiveLowPWM → String
  | BoardMarkingActiveLowPWM.onboard => "P9_14"
  | BoardMarkingActiveLowPWM.pn2 => "P9_16"
  | BoardMarkingActiveLowPWM.pn3 => "P8_19"
  | BoardMarkingActiveLowPWM.pn5 => "P8_13"

/-- Modelled from the spec: the thermistor half of the registry of the
missing interfaces/beaglebone_black.py, mapping each analog board marking to
a concrete ADC channel handle. -/
def bbb_thermistor_pin : BoardMarkingThermistorPin → String
  | BoardMarkingThermistorPin.tmp0 => "AIN0"
  | BoardMarkingThermistorPin.tmp1 => "AIN1"
  | BoardMarkingThermistorPin.tmp4 => "AIN4"
  | BoardMarkingThermistorPin.tmp5 => "AIN5"

/-- Every board marking referenced anywhere in a wire mapping, in iteration
order: all fan markings of every rack location, then all thermistor
markings, each injected into the common `BoardMarking` type. -/
def wire_mapping_all_markings (wm : WireMapping) : List BoardMarking :=
  ((wm.fans.map Prod.snd).flatten.map Sum.inl)
    ++ ((wm.thermistors.map Prod.snd).flatten.map Sum.inr)

/-- Scan for a repeated element: true exactly when some element occurs again
later in the list. -/
def has_duplicate {α : Type} [DecidableEq α] : List α → Bool
  | [] => false
  | x :: xs => (decide (x ∈ xs)) || has_duplicate xs

/-- Modelled from the spec: the resolved hardware interface assembled by the
missing interfaces/beaglebone_black.py `create_interface` (spec section 4.6
step 4), with each board marking replaced by its registry pin handle.  The
per-location fan-drive and temperature-read operations act on these resolved
pin lists. -/
structure OpenRackVentHardwareInterface where
  fan_pins : List (RackLocation × List String)
  thermistor_pins : List (RackLocation × List String)
deriving DecidableEq, Repr

/-- Modelled from the spec: `create_interface` of the missing
interfaces/beaglebone_black.py.  Spec sections 3 and 4.6: the at-most-once
invariant on board markings is validated at construction
(`DuplicateMarkingError`, no partially built interface); markings are then
resolved through the registry into the assembled interface.  Registry lookup
is total on the modelled marking enums, so `UnknownMarkingError` cannot
arise here. -/
def beaglebone_black_create_interface (wm : WireMapping) :
    Except OrvError OpenRackVentHardwareInterface :=
  if has_duplicate (wire_mapping_all_markings wm) then
    Except.error OrvError.duplicateMarkingError
  else
    Except.ok
      { fan_pins := wm.fans.map (fun p => (p.1, p.2.map bbb_pwm_pin)),
        thermistor_pins := wm.thermistors.map (fun p => (p.1, p.2.map bbb_thermistor_pin)) }

/-- Embeds board_interfaces.py `create_hardware_interface`: when the revision
is v1.0.0 and the platform is the BeagleBone Black, delegate to the
BeagleBone-specific builder; otherwise raise
`ValueError(f"Unsupported PCB Revision: ...")`. -/
def create_hardware_interface (pcb_revision : PCBRevision)
    (platform : HardwarePlatform) (wire_mapping : WireMapping) :
    Except OrvError OpenRackVentHardwareInterface :=
  if pcb_revision = PCBRevision.v100 ∧ platform = HardwarePlatform.beaglebone_black then
    beaglebone_black_create_interface wire_mapping
  else
    Except.error (OrvError.valueError ("Unsupported PCB Revision: " ++ pcb_revision.value))

/-- Modelled from the spec: the low-level command issued to one fan pin for a
given drive power (spec section 4.6 step 2: each fan-drive operation returns
the list of low-level commands issued, for observability). -/
def fan_command (drive_power : ℚ) (pin : String) : String :=
  "set-pwm " ++ pin ++ " duty " ++ toString drive_power

/-- Modelled from the spec: the per-location fan-drive operation built by the
missing interfaces/beaglebone_black.py, satisfying the `FanController`
protocol of board_interface_types.py.  Spec section 4.6 step 2: the drive
power must lie in the closed range 0 to 1; out-of-range input fails with
`RangeError` before any command is issued (the error result carries no
command trace); in-range input drives every configured fan pin and returns
the commands issued. -/
def drive_fans (fan_pins : List String) (drive_power : ℚ) :
    Except OrvError (List String) :=
  if drive_power < 0 ∨ 1 < drive_power then
    Except.error OrvError.rangeError
  else
    Except.ok (fan_pins.map (fan_command drive_power))

/-- A wiring-configuration JSON payload after `json.loads` in
`validate_pydantic_json` (orvcli.py): the three fields of the `WireMapping`
model, still raw strings.  The two dicts are association lists in document
order. -/
structure RawWireMapping where
  version : String
  fans : List (String × List String)
  thermistors : List (String × List String)

/-- Coercion of a raw string into the `WireMappingVersion` str Enum, as
pydantic validates the `version` field: only the member value "1" is
accepted. -/
def parse_wire_mapping_version (s : String) : Except String WireMappingVersion :=
  if s = "1" then Except.ok WireMappingVersion.version_1
  else Except.error ("Input should be a valid WireMappingVersion: " ++ s)

/-- Coercion of a raw string into the `RackLocation` str Enum, as pydantic
validates the dict keys of the `fans` and `thermistors` fields. -/
def parse_rack_location (s : String) : Except String RackLocation :=
  if s = "intake_lower" then Except.ok RackLocation.intake_lower
  else if s = "intake_upper" then Except.ok RackLocation.intake_upper
  else if s = "exhaust_lower" then Except.ok RackLocation.exhaust_lower
  else if s = "exhaust_upper" then Except.ok RackLocation.exhaust_upper
  else Except.error ("Input should be a valid RackLocation: " ++ s)

/-- Modelled from the spec: coercion of a raw string into the active-low PWM
marking enum of the missing board_markings.py; member values attested by the
default payload in orvcli.py are "ONBOARD", "PN2", "PN3", "PN5". -/
def parse_pwm_marking (s : String) : Except String BoardMarkingActiveLowPWM :=
  if s = "ONBOARD" then Except.ok BoardMarkingActiveLowPWM.onboard
  else if s = "PN2" then Except.ok BoardMarkingActiveLowPWM.pn2
  else if s = "PN3" then Except.ok BoardMarkingActiveLowPWM.pn3
  else if s = "PN5" then Except.ok BoardMarkingActiveLowPWM.pn5
  else Except.error ("Input should be a valid BoardMarkingActiveLowPWM: " ++ s)

/-- Modelled from the spec: coercion of a raw string into the thermistor
marking enum of the missing board_markings.py; member values attested by the
default payload in orvcli.py are "TMP0", "TMP1", "TMP4", "TMP5". -/
def parse_thermistor_marking (s : String) : Except String BoardMarkingThermistorPin :=
  if s = "TMP0" then Except.ok BoardMarkingThermistorPin.tmp0
  else if s = "TMP1" then Except.ok BoardMarkingThermistorPin.tmp1
  else if s = "TMP4" then Except.ok BoardMarkingThermistorPin.tmp4
  else if s = "TMP5" then Except.ok BoardMarkingThermistorPin.tmp5
  else Except.error ("Input should be a valid BoardMarkingThermistorPin: " ++ s)

/-- Validation of one raw dict of the payload: every key through the key
coercion, every list entry through the value coercion. -/
def parse_marking_dict {α β : Type} (pk : String → Except String α)
    (pv : String → Except String β) :
    List (String × List String) → Except String (List (α × List β))
  | [] => Except.ok []
  | (k, vs) :: rest =>
    match pk k with
    | Except.error e => Except.error e
    | Except.ok key =>
      match vs.mapM pv with
      | Except.error e => Except.error e
      | Except.ok values =>
        match parse_marking_dict pk pv rest with
        | Except.error e => Except.error e
        | Except.ok tail => Except.ok ((key, values) :: tail)

/-- Embeds the validation performed by `model(**data)` in
`validate_pydantic_json` (orvcli.py) against the `WireMapping` model of
board_interface_types.py, with the fields validated in their declaration
order in the source: `version` first, then `fans`, then `thermistors`. -/
def parse_wire_mapping (raw : RawWireMapping) : Except String WireMapping :=
  match parse_wire_mapping_version raw.version with
  | Except.error e => Except.error e
  | Except.ok v =>
    match parse_marking_dict parse_rack_location parse_pwm_marking raw.fans with
    | Except.error e => Except.error e
    | Except.ok fans =>
      match parse_marking_dict parse_rack_location parse_thermistor_marking raw.thermistors with
      | Except.error e => Except.error e
      | Except.ok th => Except.ok (WireMapping.mk v fans th)

/-- A wire mapping assigning the PN2 marking to two different rack
locations, for exercising the duplicate-marking rejection. -/
def duplicate_wire_mapping : WireMapping :=
  WireMapping.mk WireMappingVersion.version_1
    [(RackLocation.intake_lower, [BoardMarkingActiveLowPWM.pn2]),
     (RackLocation.intake_upper, [BoardMarkingActiveLowPWM.pn2])]
    []

theorem closest_go_mem (v b : ℚ) (l : List ℚ) : closest_go v b l ∈ b :: l := by
  induction l generalizing b with
  | nil => simp [closest_go]
  | cons x xs ih =>
    rw [closest_go]
    have h := ih (if |x - v| < |b - v| then x else b)
    split_ifs at h ⊢ with hc <;>
      (simp only [List.mem_cons] at h ⊢; tauto)

theorem closest_go_min_le (v b : ℚ) (l : List ℚ) :
    ∀ x ∈ b :: l, |closest_go v b l - v| ≤ |x - v| := by
  induction l generalizing b with
  | nil =>
    intro x hx
    simp only [List.mem_singleton] at hx
    simp [closest_go, hx]
  | cons x xs ih =>
    intro y hy
    rw [closest_go]
    have h := ih (if |x - v| < |b - v| then x else b)
    simp only [List.mem_cons] at hy
    split_ifs at h ⊢ with hc
    · rcases hy with rfl | rfl | hy
      · exact le_trans (h x (List.mem_cons_self x xs)) (le_of_lt hc)
      · exact h y (List.mem_cons_self y xs)
      · exact h y (List.mem_cons_of_mem x hy)
    · rcases hy with rfl | rfl | hy
      · exact h y (List.mem_cons_self y xs)
      · exact le_trans (h b (List.mem_cons_self b xs)) (not_lt.mp hc)
      · exact h y (List.mem_cons_of_mem b hy)

theorem closest_go_first_min (v b : ℚ) (l : List ℚ) :
    ∃ ys zs, b :: l = ys ++ closest_go v b l :: zs ∧
      ∀ y ∈ ys, |closest_go v b l - v| < |y - v| := by
  induction l generalizing b with
  | nil => exact ⟨[], [], rfl, by simp⟩
  | cons x xs ih =>
    rw [closest_go]
    split_ifs with hc
    · obtain ⟨ys, zs, heq, hlt⟩ := ih x
      refine ⟨b :: ys, zs, ?_, ?_⟩
      · rw [List.cons_append, ← heq]
      · intro y hy
        rcases List.mem_cons.mp hy with rfl | hy
        · exact lt_of_le_of_lt (closest_go_min_le v x xs x (List.mem_cons_self x xs)) hc
        · exact hlt y hy
    · obtain ⟨ys, zs, heq, hlt⟩ := ih b
      cases ys with
      | nil =>
        simp only [List.nil_append, List.cons.injEq] at heq
        obtain ⟨hb, hzs⟩ := heq
        refine ⟨[], x :: zs, ?_, by simp⟩
        rw [List.nil_append, ← hb, ← hzs]
      | cons y0 ys =>
        simp only [List.cons_append, List.cons.injEq] at heq
        obtain ⟨hy0, hxs⟩ := heq
        refine ⟨b :: x :: ys, zs, ?_, ?_⟩
        · rw [List.cons_append, List.cons_append, ← hxs]
        · intro y hy
          have hb2 : |closest_go v b xs - v| < |b - v| := by
            have h3 := hlt y0 (List.mem_cons_self y0 ys)
            rwa [← hy0] at h3
          rcases List.mem_cons.mp hy with rfl | hy2
          · exact hb2
          rcases List.mem_cons.mp hy2 with rfl | hy3
          · exact lt_of_lt_of_le hb2 (not_lt.mp hc)
          · exact hlt y (List.mem_cons_of_mem y0 hy3)

theorem dict_get_ok_mem {k t : ℚ} {table : List (ℚ × ℚ)}
    (h : dict_get k table = Except.ok t) : t ∈ table.map Prod.snd := by
  induction table with
  | nil => simp [dict_get] at h
  | cons kv rest ih =>
    rw [dict_get] at h
    split_ifs at h with hc
    · simp only [Except.ok.injEq] at h
      simp [← h]
    · simp [ih h]

theorem dict_get_mem_keys {k : ℚ} {table : List (ℚ × ℚ)}
    (h : k ∈ table.map Prod.fst) :
    ∃ t, dict_get k table = Except.ok t ∧ t ∈ table.map Prod.snd := by
  induction table with
  | nil => simp at h
  | cons kv rest ih =>
    rw [dict_get]
    by_cases hc : kv.1 = k
    · exact ⟨kv.2, by simp [hc], by simp⟩
    · simp only [List.map_cons, List.mem_cons] at h
      rcases h with h | h
      · exact absurd h.symm hc
      · obtain ⟨t, ht, hmem⟩ := ih h
        exact ⟨t, by simp [hc, ht], by simp [hmem]⟩

theorem has_duplicate_iff {α : Type} [DecidableEq α] (l : List α) :
    has_duplicate l = true ↔ ¬ l.Nodup := by
  induction l with
  | nil => simp [has_duplicate]
  | cons x xs ih =>
    simp only [has_duplicate, Bool.or_eq_true, decide_eq_true_eq, ih,
      List.nodup_cons]
    tauto

/-- Claim C1: the lookup-table loader is claimed to multiply each source
resistance (kilo-ohms) by 1000 to produce keys in ohms.  The code does not:
for the source entry mapping temperature 25 to resistance 10 (kilo-ohms),
the loader produces the key 10, not 10000.  This contradicts the loader's
own comment, which says the values need to be multiplied by 1000 because the
file is in kilo-ohms. -/
theorem read_resistance_to_temperature_no_unit_scaling :
    read_resistance_to_temperature [(25, 10)] = [(10, 25)] ∧
    ((10000 : ℚ), (25 : ℚ)) ∉ read_resistance_to_temperature [(25, 10)] := by
  refine ⟨rfl, ?_⟩
  norm_num [read_resistance_to_temperature]

/-- Claim C2: the combined converter never propagates a failure: its result
is exactly the option part of the two-stage conversion, so every error of
either stage becomes `none`; in particular, for every table and circuit
constants, input 0 (division by zero in the first stage) yields `none`, not
a numeric sentinel. -/
theorem adc_counts_to_temperature_total_none_on_failure :
    (∀ (table : List (ℚ × ℚ)) (p m adc : ℤ),
        adc_counts_to_temperature table p m adc =
          (two_stage_conversion table p m adc).toOption) ∧
    (∀ (table : List (ℚ × ℚ)) (p m : ℤ),
        adc_counts_to_temperature table p m 0 = none) ∧
    adc_counts_to_temperature sample_table 10000 4096 0 = none := by
  refine ⟨?_, ?_, rfl⟩
  · intro table p m adc
    unfold adc_counts_to_temperature
    cases two_stage_conversion table p m adc <;> rfl
  · intro table p m
    simp [adc_counts_to_temperature, two_stage_conversion, counts_to_resistance]

/-- Claim C3: on a non-empty table, the temperature resolver selects the key
closest in absolute difference to the input resistance, resolves ties to the
key occurring first in iteration order, and returns that key's stored
temperature (no interpolation); on the spec's example table, resistance
10000 yields 25, 10001 yields 25, and 30000 yields 0 (a tie between 50000
and 10000 resolved to the earlier key 50000). -/
theorem thermistor_resolver_nearest_first :
    (∀ (table : List (ℚ × ℚ)) (r : ℚ), table ≠ [] →
      ∃ k, closest_to_value r (table.map Prod.fst) = Except.ok k ∧
        k ∈ table.map Prod.fst ∧
        (∀ k2 ∈ table.map Prod.fst, |k - r| ≤ |k2 - r|) ∧
        (∃ ys zs, table.map Prod.fst = ys ++ k :: zs ∧
          ∀ y ∈ ys, |k - r| < |y - r|) ∧
        thermistor_temperature_resistance r table = dict_get k table) ∧
    thermistor_temperature_resistance 10000 sample_table = Except.ok 25 ∧
    thermistor_temperature_resistance 10001 sample_table = Except.ok 25 ∧
    thermistor_temperature_resistance 30000 sample_table = Except.ok 0 := by
  refine ⟨?_, ?_, ?_, ?_⟩
  · intro table r hne
    match table with
    | (k0, t0) :: ts =>
      refine ⟨closest_go r k0 (ts.map Prod.fst), rfl, ?_, ?_, ?_, rfl⟩
      · simpa using closest_go_mem r k0 (ts.map Prod.fst)
      · intro k2 hk2
        exact closest_go_min_le r k0 (ts.map Prod.fst) k2 (by simpa using hk2)
      · simpa using closest_go_first_min r k0 (ts.map Prod.fst)
  · norm_num [thermistor_temperature_resistance, closest_to_value, closest_go,
      dict_get, sample_table]
  · norm_num [thermistor_temperature_resistance, closest_to_value, closest_go,
      dict_get, sample_table]
  · norm_num [thermistor_temperature_resistance, closest_to_value, closest_go,
      dict_get, sample_table]

/-- Claim C4: for positive ADC counts, pulldown resistance and full-scale
count, the resistance converter returns exactly
pulldown * (maxCount / counts) - pulldown, with no clamping; at counts 2048,
pulldown 10000 and full scale 4096 it returns exactly 10000. -/
theorem counts_to_resistance_exact_formula :
    (∀ a p m : ℤ, 0 < a → 0 < p → 0 < m →
        counts_to_resistance a p m =
          Except.ok ((p : ℚ) * ((m : ℚ) / (a : ℚ)) - (p : ℚ))) ∧
    counts_to_resistance 2048 10000 4096 = Except.ok 10000 := by
  constructor
  · intro a p m ha hp hm
    rw [counts_to_resistance, if_neg (by exact_mod_cast ha.ne.symm)]
  · norm_num [counts_to_resistance]

/-- Claim C5: a wire mapping in which some board marking occurs more than
once anywhere across the mapping makes interface construction fail with the
duplicate-marking error, returning no (even partially built) interface; the
mapping assigning PN2 to two rack locations is rejected so. -/
theorem create_hardware_interface_rejects_duplicates :
    (∀ wm : WireMapping, ¬ (wire_mapping_all_markings wm).Nodup →
        create_hardware_interface PCBRevision.v100 HardwarePlatform.beaglebone_black wm =
          Except.error OrvError.duplicateMarkingError) ∧
    create_hardware_interface PCBRevision.v100 HardwarePlatform.beaglebone_black
        duplicate_wire_mapping = Except.error OrvError.duplicateMarkingError := by
  constructor
  · intro wm hdup
    rw [create_hardware_interface, if_pos ⟨rfl, rfl⟩,
      beaglebone_black_create_interface,
      if_pos ((has_duplicate_iff (wire_mapping_all_markings wm)).mpr hdup)]
  · rfl

/-- Claim C6: the supported platform and revision enumerations each have
exactly one member, so every pair is the single supported combination
(BeagleBoneBlack, v1.0.0) — the unsupported-pair failure branch is
unreachable — and for that pair `create_hardware_interface` delegates to the
BeagleBone-specific builder. -/
theorem create_hardware_interface_single_pair_delegates :
    ∀ (platform : HardwarePlatform) (pcb_revision : PCBRevision) (wm : WireMapping),
      platform = HardwarePlatform.beaglebone_black ∧
      pcb_revision = PCBRevision.v100 ∧
      create_hardware_interface pcb_revision platform wm =
        beaglebone_black_create_interface wm := by
  intro platform pcb_revision wm
  cases platform
  cases pcb_revision
  exact ⟨rfl, rfl, by rw [create_hardware_interface, if_pos ⟨rfl, rfl⟩]⟩

/-- Claim C7: the per-location fan-drive operation rejects every drive power
outside the closed range 0 to 1 with the range error, issuing no command
(the error carries no command trace); for in-range powers it returns the
list of commands issued, one per configured fan pin; at power 3/2 it fails
with the range error. -/
theorem drive_fans_rejects_out_of_range :
    (∀ (pins : List String) (power : ℚ), power < 0 ∨ 1 < power →
        drive_fans pins power = Except.error OrvError.rangeError) ∧
    (∀ (pins : List String) (power : ℚ), 0 ≤ power → power ≤ 1 →
        drive_fans pins power = Except.ok (pins.map (fan_command power))) ∧
    drive_fans ["P9_16", "P8_13"] (3 / 2) = Except.error OrvError.rangeError := by
  refine ⟨?_, ?_, ?_⟩
  · intro pins power h
    rw [drive_fans, if_pos h]
  · intro pins power h0 h1
    rw [drive_fans, if_neg (by simp [not_or, not_lt, h0, h1])]
  · norm_num [drive_fans]

/-- Claim C8: a raw wiring payload whose version field is not the recognized
value "1" is rejected with the version error itself, whatever the fans and
thermistors fields hold: the version gate is the first field validated (the
fields are validated in their declaration order) and an unknown version is
never accepted. -/
theorem parse_wire_mapping_version_gate (raw : RawWireMapping)
    (h : raw.version ≠ "1") :
    parse_wire_mapping raw =
      Except.error ("Input should be a valid WireMappingVersion: " ++ raw.version) := by
  rw [parse_wire_mapping, parse_wire_mapping_version, if_neg h]

/-- Concrete instance of claim C8's theorem: version "2" with well-formed
fans and thermistors contents is rejected with the version error. -/
theorem parse_wire_mapping_version_gate_witness :
    parse_wire_mapping
        (RawWireMapping.mk "2" [("intake_lower", ["PN2"])] [("intake_upper", ["TMP0"])]) =
      Except.error ("Input should be a valid WireMappingVersion: " ++ "2") :=
  parse_wire_mapping_version_gate
    (RawWireMapping.mk "2" [("intake_lower", ["PN2"])] [("intake_upper", ["TMP0"])])
    (by decide)

/-- Claim C9: whenever the combined converter returns a numeric temperature,
that temperature is one of the values stored in the loaded table. -/
theorem adc_counts_to_temperature_mem_table
    (table : List (ℚ × ℚ)) (p m adc : ℤ) (t : ℚ)
    (h : adc_counts_to_temperature table p m adc = some t) :
    t ∈ table.map Prod.snd := by
  unfold adc_counts_to_temperature at h
  split at h
  · rename_i t2 heq
    simp only [Option.some.injEq] at h
    subst h
    unfold two_stage_conversion at heq
    split at heq
    · exact absurd heq (by simp)
    · rename_i r h3
      unfold thermistor_temperature_resistance at heq
      split at heq
      · exact absurd heq (by simp)
      · exact dict_get_ok_mem heq
  · exact absurd h (by simp)

/-- Concrete instance of claim C9's theorem: at 2048 counts the converter
yields 25, which is a stored temperature of the example table. -/
theorem adc_counts_to_temperature_mem_table_witness :
    (25 : ℚ) ∈ sample_table.map Prod.snd :=
  adc_counts_to_temperature_mem_table sample_table 10000 4096 2048 25
    (by norm_num [adc_counts_to_temperature, two_stage_conversion,
      counts_to_resistance, thermistor_temperature_resistance,
      closest_to_value, closest_go, dict_get, sample_table])

/-- Claim C10: for negative ADC counts and a non-empty table, the first
stage succeeds with a resistance below the negated pulldown resistance, and
the combined converter still resolves it to a stored temperature rather than
returning `none`. -/
theorem negative_adc_counts_still_resolve
    (table : List (ℚ × ℚ)) (p m adc : ℤ)
    (hadc : adc < 0) (hp : 0 < p) (hm : 0 < m) (hne : table ≠ []) :
    (∃ r, counts_to_resistance adc p m = Except.ok r ∧ r < -((p : ℤ) : ℚ)) ∧
    ∃ t, adc_counts_to_temperature table p m adc = some t ∧
      t ∈ table.map Prod.snd := by
  have hane : adc ≠ 0 := hadc.ne
  have hok : counts_to_resistance adc p m =
      Except.ok ((p : ℚ) * ((m : ℚ) / (adc : ℚ)) - (p : ℚ)) := by
    rw [counts_to_resistance, if_neg hane]
  have hneg : (p : ℚ) * ((m : ℚ) / (adc : ℚ)) < 0 := by
    apply mul_neg_of_pos_of_neg
    · exact_mod_cast hp
    · apply div_neg_of_pos_of_neg
      · exact_mod_cast hm
      · exact_mod_cast hadc
  constructor
  · exact ⟨_, hok, by linarith⟩
  · match table with
    | (k0, t0) :: ts =>
      set r := (p : ℚ) * ((m : ℚ) / (adc : ℚ)) - (p : ℚ) with hr
      have hkmem : closest_go r k0 (ts.map Prod.fst) ∈
          ((k0, t0) :: ts).map Prod.fst := by
        simpa using closest_go_mem r k0 (ts.map Prod.fst)
      obtain ⟨t, hget, htmem⟩ := dict_get_mem_keys hkmem
      refine ⟨t, ?_, htmem⟩
      unfold adc_counts_to_temperature two_stage_conversion
      rw [hok]
      unfold thermistor_temperature_resistance
      simp only [List.map_cons, closest_to_value]
      rw [hget]

/-- Concrete instance of claim C10's theorem: at -1 counts with the example
table the resistance is below -10000 and the converter returns a stored
temperature. -/
theorem negative_adc_counts_still_resolve_witness :
    (∃ r, counts_to_resistance (-1) 10000 4096 = Except.ok r ∧
      r < -(((10000 : ℤ) : ℚ))) ∧
    ∃ t, adc_counts_to_temperature sample_table 10000 4096 (-1) = some t ∧
      t ∈ sample_table.map Prod.snd :=
  negative_adc_counts_still_resolve sample_table 10000 4096 (-1)
    (by norm_num) (by norm_num) (by norm_num) (by simp [sample_table])

end ORV
